import Mathlib

/-!
Verification of the UniFleet voucher lifecycle engine.

Shallow embedding of the repository's core: `models.py` (shared schema),
`persistence.py` (CSVRepo / DBRepo), `discount_store.py` (DiscountStore),
and the lifecycle transitions in `main.py` (`mark_redeemed`,
`ops_set_status`).

Modelling conventions:
* Cell values are `Val`: a string, a number (Python floats are modelled as
  exact rationals), or empty.  `round(x, n)` is modelled as exact
  round-half-to-even on rationals, matching Python's documented rounding.
* A voucher row is an association list from column name to `Val`; a store is
  the list of rows in insertion order (CSV file order / sqlite rowid order).
* Date parsing (pandas `to_datetime`, sqlite `datetime()`) is external
  library behaviour: a date cell parses iff it holds a number, which stands
  for the parsed timestamp; unparsable / empty cells parse to none.
  Fixed-format ISO strings compare identically under raw string comparison
  and under parsed comparison, so sqlite's raw `transaction_date DESC` is
  also modelled on the parsed value.
* Fallible operations return `Except Err`; a raised Python exception that
  the route surfaces as an HTTP error is an `Except.error`.
-/

namespace UniFleet

/-- An error taxonomy for the engine (spec §7). -/
inductive Err where
  | notFound
  | invalidValue
  | invalidTransition
  | computationError
  | assetGenerationError
  deriving DecidableEq, Repr

/-- A cell value: a string, a number (Python float modelled as ℚ), or empty. -/
inductive Val where
  | str (s : String)
  | num (q : ℚ)
  | empty
  deriving DecidableEq, Repr

/-- Python truthiness of a cell: `0`, `""` and missing are falsy. -/
def Val.truthy : Val → Bool
  | .str s => s ≠ ""
  | .num q => q ≠ 0
  | .empty => false

/-- `float(x or 0)` with a fallback to `0.0` on exceptions, as the Approve
flow reads `requested_amount_php` and the snapshot fields (`main.py`). -/
def Val.toNum : Val → ℚ
  | .num q => q
  | _ => 0

/-- Python's `str.strip()`: drop leading and trailing whitespace.  Defined
structurally over the character list so that it evaluates. -/
def pyStrip (s : String) : String :=
  ⟨((s.data.dropWhile Char.isWhitespace).reverse.dropWhile Char.isWhitespace).reverse⟩

/-- `str(x).strip()` on a cell, as `mark_redeemed` and `ops_set_status`
read the `status` column (numbers and missing cells do not occur as
statuses; they read as the empty string). -/
def Val.toStr : Val → String
  | .str s => pyStrip s
  | .num _ => ""
  | .empty => ""

/-- `VOUCHER_COLUMNS` from `models.py`: the shared voucher schema. -/
def VOUCHER_COLUMNS : List String :=
  [ "voucher_id",
    "station", "requested_amount_php", "liters_requested",
    "transaction_date", "expected_refill_date",
    "live_price_php_per_liter", "discount_per_liter", "discount_total",
    "total_dispensed", "liters_dispensed",
    "driver_name", "vehicle_plate", "truck_make", "truck_model",
    "number_of_wheels",
    "status", "redemption_timestamp",
    "created_at", "updated_at",
    "price_snapshot_php_per_liter", "price_snapshot_updated_at",
    "discount_snapshot_php_per_liter", "discount_snapshot_captured_at",
    "discount_total_php", "total_dispensed_php", "computed_at" ]

/-- The column set of the `vouchers` table in `SCHEMA_SQL` (`models.py`). -/
def sqlVoucherColumns : List String :=
  [ "voucher_id",
    "station", "requested_amount_php", "liters_requested",
    "transaction_date", "expected_refill_date",
    "live_price_php_per_liter", "discount_per_liter", "discount_total",
    "total_dispensed", "liters_dispensed",
    "driver_name", "vehicle_plate", "truck_make", "truck_model",
    "number_of_wheels",
    "status", "redemption_timestamp" ]

/-- Round a rational to the nearest integer, ties to even: the semantics of
Python's built-in `round`. -/
def roundHalfEven (q : ℚ) : ℤ :=
  let f := ⌊q⌋
  let r := q - (f : ℚ)
  if r < 1/2 then f
  else if 1/2 < r then f + 1
  else if f % 2 = 0 then f else f + 1

/-- Python's `round(x, n)` on our exact-rational model of floats. -/
def pyRound (q : ℚ) (n : ℕ) : ℚ :=
  (roundHalfEven (q * ((10 ^ n : ℕ) : ℚ)) : ℚ) / ((10 ^ n : ℕ) : ℚ)

/-- The derived monetary fields computed by the Approve branch of
`ops_set_status` (`main.py` lines 363–373). -/
structure Derived where
  liters_requested : ℚ
  discount_total : ℚ
  total_dispensed : ℚ
  liters_dispensed : ℚ
  deriving DecidableEq, Repr

/-- The Approve math from `main.py` lines 363–373, zero-price guard
included: inside the positive branch the code guards the division
`discount_total / price` with `if price else 0`, which on exact rationals
is the same as division (division by zero is zero). -/
def computeDerived (amount price dpl : ℚ) : Derived :=
  if 0 < amount ∧ 0 < price then
    let liters_requested := pyRound (amount / price) 2
    let discount_total := pyRound (liters_requested * dpl) 2
    let total_dispensed := pyRound (amount + discount_total) 2
    let liters_dispensed :=
      pyRound (liters_requested + (if price ≠ 0 then discount_total / price else 0)) 2
    ⟨liters_requested, discount_total, total_dispensed, liters_dispensed⟩
  else
    ⟨0, 0, amount, 0⟩

/-! ## Voucher rows and stores -/

/-- A voucher row: association list from column name to cell value.  A cell
absent from the list reads as `Val.empty` (pandas / sqlite NULL→missing). -/
abbrev VRow := List (String × Val)

/-- Read a cell (`row.get(k)` / `df[k]`); missing cells read as empty. -/
def getF : VRow → String → Val
  | [], _ => .empty
  | (k, v) :: r, k2 => if k = k2 then v else getF r k2

/-- Write a cell, replacing the first binding of the key or appending. -/
def setF : VRow → String → Val → VRow
  | [], k2, v2 => [(k2, v2)]
  | (k, v) :: r, k2, v2 =>
    if k = k2 then (k, v2) :: r else (k, v) :: setF r k2 v2

/-- A voucher store: rows in insertion order (CSV file order / rowid order). -/
abbrev Store := List VRow

/-- Does the store contain the voucher id?  (`voucher_id in df['voucher_id'].values`). -/
def hasVoucher (s : Store) (vid : String) : Bool :=
  s.any (fun r => getF r "voucher_id" = Val.str vid)

/-- `repo.get_voucher`: first row whose `voucher_id` matches, if any
(`CSVRepo.get_voucher` / `DBRepo.get_voucher`). -/
def get_voucher (s : Store) (vid : String) : Option VRow :=
  s.find? (fun r => getF r "voucher_id" = Val.str vid)

/-- Apply a field map to a row left to right, touching only known schema
columns. -/
def applyFields (r : VRow) (fm : List (String × Val)) : VRow :=
  fm.foldl (fun acc kv =>
    if kv.1 ∈ VOUCHER_COLUMNS then setF acc kv.1 kv.2 else acc) r

/-- Modelled from the spec: `updateFields(voucherId, fieldMap)` — the
repository method `update_voucher_fields` is called by the Approve flow in
`main.py` (line 376) but its definition is not part of the sources; per the
spec (§4.3) it is a "partial update of arbitrary known fields" that "fails
with `NotFound` if unknown". -/
def update_voucher_fields (s : Store) (vid : String) (fm : List (String × Val)) :
    Except Err Store :=
  if hasVoucher s vid then
    .ok (s.map (fun r =>
      if getF r "voucher_id" = Val.str vid then applyFields r fm else r))
  else
    .error .notFound

/-- The row rewrite shared by both `set_status` implementations: set
`status`; store the supplied timestamp when the new status is `Redeemed`,
otherwise clear it. -/
def setStatusRow (r : VRow) (new_status ts : String) : VRow :=
  if new_status = "Redeemed" then
    setF (setF r "status" (.str "Redeemed")) "redemption_timestamp" (.str ts)
  else
    setF (setF r "status" (.str new_status)) "redemption_timestamp" (.str "")

/-- `CSVRepo.set_status` (`persistence.py` 86–97): raise `KeyError` when the
id is unknown; otherwise rewrite the matching rows and bump `updated_at`
(the CSV frame always carries the `updated_at` column via `_ensure_cols`). -/
def CSVRepo.set_status (s : Store) (vid new_status ts now : String) :
    Except Err Store :=
  if hasVoucher s vid then
    .ok (s.map (fun r =>
      if getF r "voucher_id" = Val.str vid then
        setF (setStatusRow r new_status ts) "updated_at" (.str now)
      else r))
  else
    .error .notFound

/-- `DBRepo.set_status` (`persistence.py` 191–202): a plain SQL `UPDATE`
on the matching primary key — no existence check and no `updated_at`
column in the schema. -/
def DBRepo.set_status (s : Store) (vid new_status ts : String) :
    Except Err Store :=
  .ok (s.map (fun r =>
    if getF r "voucher_id" = Val.str vid then setStatusRow r new_status ts
    else r))

/-! ## list_recent_vouchers

Both backends sort by a lexicographic key and truncate.  Keys are encoded
as equal-length lists of rationals compared lexicographically ascending
(descending components are negated; a flag component is `0`/`1`). -/

/-- Lexicographic comparison of two rational key lists. -/
def lexLe : List ℚ → List ℚ → Bool
  | [], _ => true
  | _ :: _, [] => true
  | a :: as, b :: bs =>
    if a < b then true else if b < a then false else lexLe as bs

/-- A date cell parses (pandas `to_datetime` / sqlite `datetime`) iff it
holds a number, which stands for the parsed timestamp. -/
def parseVal : Val → Option ℚ
  | .num q => some q
  | _ => none

/-- Sqlite's `IS NOT NULL AND <> ''` presence test on a cell. -/
def presentVal (v : Val) : Bool := v ≠ .empty ∧ v ≠ .str ""

/-- The date components of the CSV sort key: `_has_date` descending
(parsed rows first), parsed `transaction_date` descending. -/
def csvDateKey (r : VRow) : List ℚ :=
  let t := parseVal (getF r "transaction_date")
  [if t.isSome then 0 else 1, -(t.getD 0)]

/-- The sort key of `CSVRepo.list_recent_vouchers` (`persistence.py`
51–74) for the row at insertion index `i`: the date components, then the
insertion index descending as tie-break. -/
def csvKey (p : ℕ × VRow) : List ℚ :=
  csvDateKey p.2 ++ [-(p.1 : ℚ)]

/-- Encode a `DESC` sqlite component where NULL (unparsable) sorts last:
a presence flag followed by the negated value. -/
def descOpt : Option ℚ → List ℚ
  | some q => [0, -q]
  | none => [1, 0]

/-- The date components of the DB sort key (`persistence.py` 167–181):
`created_at` presence, `datetime(created_at) DESC` (NULL last),
`transaction_date` presence, `transaction_date DESC`. -/
def dbDateKey (r : VRow) : List ℚ :=
  let c := getF r "created_at"
  let t := getF r "transaction_date"
  [if presentVal c then 0 else 1] ++ descOpt (parseVal c) ++
    [if presentVal t then 0 else 1] ++ descOpt (parseVal t)

/-- The sort key of `DBRepo.list_recent_vouchers`: the date components,
then `rowid DESC` as tie-break. -/
def dbKey (p : ℕ × VRow) : List ℚ :=
  dbDateKey p.2 ++ [-(p.1 : ℚ)]

/-- `CSVRepo.list_recent_vouchers`: sort the frame by the CSV key, drop the
helper columns, truncate to `limit`. -/
def CSVRepo.list_recent_vouchers (s : Store) (limit : ℕ) : List VRow :=
  (((s.enum.mergeSort (fun a b => lexLe (csvKey a) (csvKey b))).map Prod.snd).take limit)

/-- `DBRepo.list_recent_vouchers`: the `SELECT … ORDER BY … LIMIT ?`. -/
def DBRepo.list_recent_vouchers (s : Store) (limit : ℕ) : List VRow :=
  (((s.enum.mergeSort (fun a b => lexLe (dbKey a) (dbKey b))).map Prod.snd).take limit)

/-! ## Lifecycle transitions (`main.py`)

The flows are modelled over the flat-file backend (`repo = CSVRepo()`),
whose `set_status`/`update_voucher_fields` the routes call. -/

/-- Python's `str.lower()`, structurally over the character list. -/
def pyLower (s : String) : String := ⟨s.data.map Char.toLower⟩

/-- The redemption policy check of `mark_redeemed` (`main.py` 288–291):
lenient mode allows empty, `Unverified` and `Unredeemed`; strict mode
(`ENFORCE_PHASES`) allows only `Unredeemed`. -/
abbrev redeemAllowed (enforce : Bool) (cur : String) : Prop :=
  if enforce then cur = "Unredeemed"
  else cur = "" ∨ cur = "Unverified" ∨ cur = "Unredeemed"

/-- `mark_redeemed` (`main.py` 283–298): policy check against the active
mode (`ENFORCE_PHASES`), then `set_status(vid, 'Redeemed', now)`. -/
def mark_redeemed (s : Store) (vid : String) (enforce : Bool) (now : String) :
    Except Err Store :=
  match get_voucher s vid with
  | none => .error .notFound
  | some row =>
    let cur := (getF row "status").toStr
    if redeemAllowed enforce cur then CSVRepo.set_status s vid "Redeemed" now now
    else .error .invalidTransition

/-- A station entry as `price_store.list_stations()` returns it. -/
structure StationEntry where
  name : String
  price : ℚ
  updated_at : ℚ
  deriving DecidableEq, Repr

/-- `DiscountStore.get` (`discount_store.py` 53–57): lookup under the
normalized (stripped) station name; stored keys are already normalized. -/
def DiscountStore.get (m : List (String × ℚ)) (station : String) : Option ℚ :=
  (m.find? (fun p => p.1 = pyStrip station)).map (·.2)

/-- `int(x or 0) if str(x or "").isdigit() else 0`: a snapshot epoch cell
converts only when it holds a non-negative integer. -/
def epochOf (v : Val) : ℚ :=
  match v with
  | .num q => if q.den = 1 ∧ 0 ≤ q.num then q else 0
  | _ => 0

/-- Resolve the price used at approval (`main.py` 326–348): the booking
snapshot if positive, else the live registry price of the first station
whose stripped lowercased name matches (0 when no station matches). -/
def resolvePrice (row : VRow) (stations : List StationEntry) : ℚ :=
  let station_name := (getF row "station").toStr
  let snap_price := (getF row "price_snapshot_php_per_liter").toNum
  if snap_price ≤ 0 then
    match stations.find? (fun st => pyLower (pyStrip st.name) = pyLower station_name) with
    | some st => st.price
    | none => 0
  else snap_price

/-- Resolve the discount used at approval (`main.py` 350–359): the booking
snapshot clamped at 0; when it is 0, the live registry discount if any. -/
def resolveDiscount (row : VRow) (discounts : List (String × ℚ)) : ℚ :=
  let station_name := (getF row "station").toStr
  let snap_disc := (getF row "discount_snapshot_php_per_liter").toNum
  let dpl := if snap_disc < 0 then 0 else snap_disc
  if dpl = 0 then
    match DiscountStore.get discounts station_name with
    | some q => q
    | none => dpl
  else dpl

/-- `x or y` on a cell: keep the original cell when truthy, else `y`. -/
def orElseVal (v : Val) (w : Val) : Val := if v.truthy then v else w

/-- The field map the Approve flow persists through `updateFields`
(`main.py` 376–395). -/
def approveFieldMap (row : VRow) (stations : List StationEntry)
    (discounts : List (String × ℚ)) (nowEpoch : ℚ) (computedAt : String) :
    List (String × Val) :=
  let station_name := (getF row "station").toStr
  let price := resolvePrice row stations
  let dpl := resolveDiscount row discounts
  let amount := (getF row "requested_amount_php").toNum
  let price_updated_at :=
    if (getF row "price_snapshot_php_per_liter").toNum ≤ 0 then
      match stations.find? (fun st => pyLower (pyStrip st.name) = pyLower station_name) with
      | some st => st.updated_at
      | none => 0
    else epochOf (getF row "price_snapshot_updated_at")
  let disc_captured_at₀ := epochOf (getF row "discount_snapshot_captured_at")
  let snap_disc := (getF row "discount_snapshot_php_per_liter").toNum
  let disc_captured_at :=
    if (if snap_disc < 0 then 0 else snap_disc) = 0 ∧ disc_captured_at₀ = 0 then nowEpoch
    else disc_captured_at₀
  let d := computeDerived amount price dpl
  [ ("live_price_php_per_liter", .num price),
    ("discount_per_liter", .num dpl),
    ("price_snapshot_php_per_liter",
      orElseVal (getF row "price_snapshot_php_per_liter") (.num price)),
    ("price_snapshot_updated_at",
      orElseVal (getF row "price_snapshot_updated_at") (.num price_updated_at)),
    ("discount_snapshot_php_per_liter",
      orElseVal (getF row "discount_snapshot_php_per_liter") (.num dpl)),
    ("discount_snapshot_captured_at",
      orElseVal (getF row "discount_snapshot_captured_at") (.num disc_captured_at)),
    ("liters_requested", .num d.liters_requested),
    ("discount_total_php", .num d.discount_total),
    ("total_dispensed_php", .num d.total_dispensed),
    ("liters_dispensed", .num d.liters_dispensed),
    ("computed_at", .str computedAt) ]

/-- The Approve branch of `ops_set_status` (`main.py` 316–411): persist the
computation through `updateFields`, fail fast when amount or price is still
unusable (HTTP 400, `ComputationError`), invoke the external asset
generator (`assetOk` models its success; failure is HTTP 500,
`AssetGenerationError`), and only then flip the status to `Unredeemed`.
Returns the store as persisted together with the outcome. -/
def ops_approve (s : Store) (vid : String) (stations : List StationEntry)
    (discounts : List (String × ℚ)) (assetOk : Bool) (nowEpoch : ℚ)
    (computedAt now : String) : Store × Except Err Unit :=
  match get_voucher s vid with
  | none => (s, .error .notFound)
  | some row =>
    let price := resolvePrice row stations
    match update_voucher_fields s vid
        (approveFieldMap row stations discounts nowEpoch computedAt) with
    | .error e => (s, .error e)
    | .ok s₂ =>
      match get_voucher s₂ vid with
      | none => (s₂, .error .computationError)
      | some fresh =>
        if ¬ (getF fresh "requested_amount_php").truthy ∨ price ≤ 0 then
          (s₂, .error .computationError)
        else if ¬ assetOk then
          (s₂, .error .assetGenerationError)
        else
          match CSVRepo.set_status s₂ vid "Unredeemed" "" now with
          | .ok s₃ => (s₃, .ok ())
          | .error e => (s₂, .error e)

/-- `ops_set_status` (`main.py` 300–420): dispatch on the target status.
`ts` is the redemption timestamp taken at the time of the call. -/
def ops_set_status (s : Store) (vid new_status : String)
    (stations : List StationEntry) (discounts : List (String × ℚ))
    (assetOk : Bool) (nowEpoch : ℚ) (computedAt ts now : String) :
    Store × Except Err Unit :=
  if new_status ∉ ["Unverified", "Unredeemed", "Redeemed"] then
    (s, .error .invalidValue)
  else
    match get_voucher s vid with
    | none => (s, .error .notFound)
    | some _ =>
      if new_status = "Redeemed" then
        match CSVRepo.set_status s vid "Redeemed" ts now with
        | .ok s₂ => (s₂, .ok ())
        | .error e => (s, .error e)
      else if new_status = "Unredeemed" then
        ops_approve s vid stations discounts assetOk nowEpoch computedAt now
      else
        match CSVRepo.set_status s vid new_status "" now with
        | .ok s₂ => (s₂, .ok ())
        | .error e => (s, .error e)

/-! ## Discount Registry (`discount_store.py`)

The JSON current-state file is a normalized-key association list; the CSV
audit log is a list of history rows.  `old`/`new` are optional values:
`none` is written to the CSV as the empty string (`_append_history`). -/

/-- One row of `data/discount_history.csv`. -/
structure HistRow where
  timestamp : String
  station : String
  old : Option ℚ
  new : Option ℚ
  actor : String
  reason : String
  deriving DecidableEq, Repr

/-- The persisted state of a `DiscountStore`. -/
structure DiscountState where
  data : List (String × ℚ)
  history : List HistRow
  deriving DecidableEq, Repr

/-- Lookup in the discount map (`data.get(key)`). -/
def dataGet (m : List (String × ℚ)) (k : String) : Option ℚ :=
  (m.find? (fun p => p.1 = k)).map (·.2)

/-- `data[key] = value`: replace the binding or append it. -/
def dataSet : List (String × ℚ) → String → ℚ → List (String × ℚ)
  | [], k, v => [(k, v)]
  | (k1, v1) :: r, k, v =>
    if k1 = k then (k1, v) :: r else (k1, v1) :: dataSet r k v

/-- `del data[key]`. -/
def dataDel (m : List (String × ℚ)) (k : String) : List (String × ℚ) :=
  m.filter (fun p => p.1 ≠ k)

/-- `DiscountStore._validate_and_round`: negative values are rejected,
valid ones rounded to 4 decimals.  (Our cells are numbers, so the
"must be a number" branch cannot fire in the model.) -/
def validate_and_round (v : ℚ) : Except Err ℚ :=
  if v < 0 then .error .invalidValue else .ok (pyRound v 4)

/-- `DiscountStore.set` (`discount_store.py` 59–84): set or clear one
station's discount; every performed mutation appends exactly one audit
row.  Clearing an absent key is a no-op (no row). -/
def DiscountStore.set (st : DiscountState) (station : String) (value : Option ℚ)
    (nowIso actor reason : String) : Except Err DiscountState :=
  let key := pyStrip station
  let old := dataGet st.data key
  match value with
  | none =>
    if old.isSome then
      .ok ⟨dataDel st.data key,
           st.history ++ [⟨nowIso, key, old, none, actor, reason⟩]⟩
    else .ok st
  | some v =>
    match validate_and_round v with
    | .error e => .error e
    | .ok nv =>
      .ok ⟨dataSet st.data key nv,
           st.history ++ [⟨nowIso, key, old, some nv, actor, reason⟩]⟩

/-- The loop body of `DiscountStore.set_many` (`discount_store.py`
95–111): walk the updates, mutating the in-memory map and accumulating
history rows; a validation failure raises out of the loop. -/
def setManyAux (nowIso actor reason : String) :
    List (String × Option ℚ) → List (String × ℚ) → List HistRow →
    Except Err (List (String × ℚ) × List HistRow)
  | [], data, rows => .ok (data, rows)
  | (station, value) :: rest, data, rows =>
    let key := pyStrip station
    let old := dataGet data key
    match value with
    | none =>
      if old.isSome then
        setManyAux nowIso actor reason rest (dataDel data key)
          (rows ++ [⟨nowIso, key, old, none, actor, reason⟩])
      else setManyAux nowIso actor reason rest data rows
    | some v =>
      match validate_and_round v with
      | .error e => .error e
      | .ok nv =>
        setManyAux nowIso actor reason rest (dataSet data key nv)
          (rows ++ [⟨nowIso, key, old, some nv, actor, reason⟩])

/-- `DiscountStore.set_many`: `_save` and `_append_history_rows` run only
after the whole loop, so a validation failure leaves the persisted state
untouched; the second component is the raised error, if any. -/
def DiscountStore.set_many (st : DiscountState) (updates : List (String × Option ℚ))
    (nowIso actor reason : String) : DiscountState × Option Err :=
  match setManyAux nowIso actor reason updates st.data [] with
  | .ok (d, rows) => (⟨d, st.history ++ rows⟩, none)
  | .error e => (st, some e)

/-- The status cell of a voucher, if the voucher exists. -/
def statusOf (s : Store) (vid : String) : Option Val :=
  (get_voucher s vid).map (fun r => getF r "status")

/-- The observable CSV ordering on rows: sorted by the date components of
the CSV sort key (parsable `transaction_date` first, then parsed date
descending). -/
def csvOrdered (a b : VRow) : Prop := lexLe (csvDateKey a) (csvDateKey b) = true

/-- The observable DB ordering on rows: sorted by the date components of
the DB sort key (`created_at` presence / recency, then
`transaction_date`). -/
def dbOrdered (a b : VRow) : Prop := lexLe (dbDateKey a) (dbDateKey b) = true

/-! ## Concrete fixtures used by counterexamples and witnesses -/

/-- Voucher created at time 1 (`transaction_date` = `created_at` = 1). -/
def rowT1 : VRow :=
  [("voucher_id", .str "T1"), ("transaction_date", .num 1), ("created_at", .num 1)]

/-- Voucher created at time 2. -/
def rowT2 : VRow :=
  [("voucher_id", .str "T2"), ("transaction_date", .num 2), ("created_at", .num 2)]

/-- Voucher created at time 3. -/
def rowT3 : VRow :=
  [("voucher_id", .str "T3"), ("transaction_date", .num 3), ("created_at", .num 3)]

/-- Three vouchers with creation times T1 < T2 < T3, in insertion order. -/
def exStoreT : Store := [rowT1, rowT2, rowT3]

/-- A voucher whose transaction date (2) is later than its creation (1). -/
def rowA : VRow :=
  [("voucher_id", .str "A"), ("transaction_date", .num 2), ("created_at", .num 1)]

/-- A voucher whose transaction date (1) precedes its creation (2). -/
def rowB : VRow :=
  [("voucher_id", .str "B"), ("transaction_date", .num 1), ("created_at", .num 2)]

/-- A store on which the two backends order differently. -/
def exStoreAB : Store := [rowA, rowB]

/-- A booked voucher whose station has no price anywhere: its resolved
price at approval is 0. -/
def exRowP0 : VRow :=
  [("voucher_id", .str "VP"), ("station", .str "Nowhere"),
   ("requested_amount_php", .num 1000), ("status", .str "Unverified")]

/-- A store holding only the price-less voucher. -/
def exStoreP0 : Store := [exRowP0]

/-- A booked voucher with a positive price snapshot. -/
def exRowOK : VRow :=
  [("voucher_id", .str "VK"), ("station", .str "Cleanfuel - Balagtas"),
   ("requested_amount_php", .num 1000),
   ("price_snapshot_php_per_liter", .num 60),
   ("discount_snapshot_php_per_liter", .num (5/2)),
   ("discount_snapshot_captured_at", .num 7),
   ("price_snapshot_updated_at", .num 5),
   ("status", .str "Unverified")]

/-- A store holding only the priced voucher. -/
def exStoreOK : Store := [exRowOK]

/-- A stored voucher with status `Unverified` (string cells only). -/
def exRowV1 : VRow :=
  [("voucher_id", .str "V1"), ("station", .str "Cleanfuel - Balagtas"),
   ("status", .str "Unverified"), ("redemption_timestamp", .str ""),
   ("updated_at", .str "U0")]

/-- A one-voucher store. -/
def exStoreV1 : Store := [exRowV1]

/-- A stored voucher with status `Unredeemed`. -/
def exRowV2 : VRow :=
  [("voucher_id", .str "V2"), ("station", .str "Unioil - Buendia"),
   ("status", .str "Unredeemed"), ("redemption_timestamp", .str ""),
   ("updated_at", .str "U0")]

/-- A two-voucher store. -/
def exStoreV12 : Store := [exRowV1, exRowV2]

/-! ## Helper lemmas -/

theorem getF_setF_same (r : VRow) (k : String) (v : Val) :
    getF (setF r k v) k = v := by
  induction r with
  | nil => simp [setF, getF]
  | cons p r ih =>
    obtain ⟨k1, v1⟩ := p
    by_cases h : k1 = k
    · simp [setF, getF, h]
    · simp [setF, getF, h, ih]

theorem getF_setF_ne (r : VRow) {k k2 : String} (v : Val) (h : k ≠ k2) :
    getF (setF r k v) k2 = getF r k2 := by
  induction r with
  | nil => simp [setF, getF, h]
  | cons p r ih =>
    obtain ⟨k1, v1⟩ := p
    by_cases h1 : k1 = k
    · subst h1; simp [setF, getF, h]
    · simp [setF, getF, h1, ih]

theorem map_id_of {α : Type} (l : List α) (f : α → α) (h : ∀ x ∈ l, f x = x) :
    l.map f = l := by
  induction l with
  | nil => rfl
  | cons a l ih =>
    simp only [List.map_cons, h a (by simp), List.cons.injEq, true_and]
    exact ih (fun x hx => h x (by simp [hx]))

theorem find?_map_of {α : Type} (l : List α) (f : α → α) (p : α → Bool)
    (h : ∀ x, p (f x) = p x) :
    (l.map f).find? p = (l.find? p).map f := by
  induction l with
  | nil => simp
  | cons a l ih =>
    by_cases ha : p a
    · rw [List.map_cons, List.find?_cons_of_pos _ (by rw [h]; exact ha),
        List.find?_cons_of_pos _ ha, Option.map_some']
    · rw [List.map_cons, List.find?_cons_of_neg _ (by rw [h]; simpa using ha),
        List.find?_cons_of_neg _ (by simpa using ha), ih]

theorem applyFields_cons (r : VRow) (k1 : String) (v1 : Val) (fm : List (String × Val)) :
    applyFields r ((k1, v1) :: fm) =
      applyFields (if k1 ∈ VOUCHER_COLUMNS then setF r k1 v1 else r) fm := rfl

theorem getF_applyFields_not_mem (fm : List (String × Val)) (r : VRow) (k : String)
    (h : ∀ p ∈ fm, p.1 ≠ k) :
    getF (applyFields r fm) k = getF r k := by
  induction fm generalizing r with
  | nil => rfl
  | cons q fm ih =>
    obtain ⟨k1, v1⟩ := q
    have hk1 : k1 ≠ k := h (k1, v1) (by simp)
    have htail : ∀ p ∈ fm, p.1 ≠ k := fun p hp => h p (by simp [hp])
    rw [applyFields_cons]
    by_cases hc : k1 ∈ VOUCHER_COLUMNS
    · rw [if_pos hc, ih _ htail, getF_setF_ne _ _ hk1]
    · rw [if_neg hc, ih _ htail]

theorem getF_applyFields_mem (fm : List (String × Val)) (r : VRow) (k : String) (v : Val)
    (hnd : (fm.map Prod.fst).Nodup)
    (hfind : fm.find? (fun p => p.1 = k) = some (k, v)) :
    getF (applyFields r fm) k = if k ∈ VOUCHER_COLUMNS then v else getF r k := by
  induction fm generalizing r with
  | nil => simp at hfind
  | cons q fm ih =>
    obtain ⟨k1, v1⟩ := q
    rw [List.map_cons] at hnd
    have hcons := List.nodup_cons.mp hnd
    by_cases hk : k1 = k
    · subst hk
      rw [List.find?_cons_of_pos _ (by simp)] at hfind
      have hv : v1 = v := by simpa using hfind
      subst hv
      have hnot : ∀ p ∈ fm, p.1 ≠ k1 := by
        intro p hp hpe
        have hmem : p.1 ∈ fm.map Prod.fst := List.mem_map_of_mem Prod.fst hp
        exact hcons.1 (hpe ▸ hmem)
      rw [applyFields_cons]
      by_cases hc : k1 ∈ VOUCHER_COLUMNS
      · rw [if_pos hc, getF_applyFields_not_mem _ _ _ hnot, getF_setF_same, if_pos hc]
      · rw [if_neg hc, getF_applyFields_not_mem _ _ _ hnot, if_neg hc]
    · rw [List.find?_cons_of_neg _ (by simpa using hk)] at hfind
      rw [applyFields_cons]
      by_cases hc : k1 ∈ VOUCHER_COLUMNS
      · rw [if_pos hc, ih _ hcons.2 hfind, getF_setF_ne _ _ hk]
      · rw [if_neg hc, ih _ hcons.2 hfind]

theorem hasVoucher_iff {s : Store} {vid : String} :
    hasVoucher s vid = true ↔ ∃ r ∈ s, getF r "voucher_id" = Val.str vid := by
  simp [hasVoucher]

theorem hasVoucher_of_get {s : Store} {vid : String} {row : VRow}
    (h : get_voucher s vid = some row) : hasVoucher s vid = true := by
  have hm := List.mem_of_find?_eq_some h
  have hp := List.find?_some h
  exact hasVoucher_iff.mpr ⟨row, hm, by simpa using hp⟩

theorem get_voucher_none {s : Store} {vid : String} (h : hasVoucher s vid = false) :
    get_voucher s vid = none := by
  rw [get_voucher, List.find?_eq_none]
  intro r hr
  simp only [hasVoucher, List.any_eq_false] at h
  exact h r hr

theorem dataGet_dataSet_same (m : List (String × ℚ)) (k : String) (v : ℚ) :
    dataGet (dataSet m k v) k = some v := by
  induction m with
  | nil => simp [dataSet, dataGet]
  | cons p m ih =>
    obtain ⟨k1, v1⟩ := p
    by_cases h : k1 = k
    · simp [dataSet, dataGet, h]
    · simp only [dataSet, if_neg h]
      simpa [dataGet, List.find?_cons_of_neg, h] using ih

theorem dataGet_dataDel_same (m : List (String × ℚ)) (k : String) :
    dataGet (dataDel m k) k = none := by
  rw [dataGet, Option.map_eq_none', List.find?_eq_none]
  intro p hp
  have := List.of_mem_filter hp
  simpa using this

theorem lexLe_total (as bs : List ℚ) : lexLe as bs = true ∨ lexLe bs as = true := by
  induction as generalizing bs with
  | nil => left; simp [lexLe]
  | cons a as ih =>
    cases bs with
    | nil => left; simp [lexLe]
    | cons b bs =>
      rcases lt_trichotomy a b with h | h | h
      · left; simp [lexLe, h]
      · subst h
        rcases ih bs with h2 | h2
        · left; simp [lexLe, lt_irrefl, h2]
        · right; simp [lexLe, lt_irrefl, h2]
      · right; simp [lexLe, h]

theorem lexLe_trans {as bs cs : List ℚ} (h1 : as.length = bs.length)
    (h2 : bs.length = cs.length) (hab : lexLe as bs = true)
    (hbc : lexLe bs cs = true) : lexLe as cs = true := by
  induction as generalizing bs cs with
  | nil => simp [lexLe]
  | cons a as ih =>
    cases bs with
    | nil => simp at h1
    | cons b bs =>
      cases cs with
      | nil => simp at h2
      | cons c cs =>
        simp only [lexLe] at hab hbc ⊢
        by_cases h3 : a < b
        · by_cases h4 : b < c
          · simp [lt_trans h3 h4]
          · by_cases h5 : c < b
            · simp [h4, h5] at hbc
            · have : b = c := le_antisymm (not_lt.mp h5) (not_lt.mp h4)
              subst this
              simp [h3]
        · by_cases h5 : b < a
          · simp [h3, h5] at hab
          · have hba : a = b := le_antisymm (not_lt.mp h5) (not_lt.mp h3)
            subst hba
            by_cases h4 : a < c
            · simp [h4]
            · by_cases h6 : c < a
              · simp [h4, h6] at hbc
              · have : a = c := le_antisymm (not_lt.mp h6) (not_lt.mp h4)
                subst this
                simp only [lt_irrefl, if_false] at hab hbc ⊢
                exact ih (by simpa using h1) (by simpa using h2) hab hbc

theorem lexLe_append_last {as bs : List ℚ} (x y : ℚ) (h : as.length = bs.length)
    (hle : lexLe (as ++ [x]) (bs ++ [y]) = true) : lexLe as bs = true := by
  induction as generalizing bs with
  | nil => simp [lexLe]
  | cons a as ih =>
    cases bs with
    | nil => simp at h
    | cons b bs =>
      simp only [List.cons_append, lexLe] at hle ⊢
      by_cases h3 : a < b
      · simp [h3]
      · by_cases h5 : b < a
        · simp [h3, h5] at hle
        · simp only [h3, h5, if_false] at hle ⊢
          exact ih (by simpa using h) hle

/-! ## Claim C3 -/

/-- **C3.** The claim says every field of the shared voucher schema is
persisted and readable through both backends.  The relational schema
(`SCHEMA_SQL`) in fact omits nine of the `VOUCHER_COLUMNS`: the audit
timestamps, the four booking-time snapshot fields and the three
computed-at-verify fields — even though `DBRepo.append_vouchers` builds an
`INSERT` naming every `VOUCHER_COLUMNS` column.  This theorem exhibits the
mismatch. -/
theorem C3_schema_parity_fails :
    "created_at" ∈ VOUCHER_COLUMNS ∧ "created_at" ∉ sqlVoucherColumns ∧
    "updated_at" ∈ VOUCHER_COLUMNS ∧ "updated_at" ∉ sqlVoucherColumns ∧
    "price_snapshot_php_per_liter" ∈ VOUCHER_COLUMNS ∧
      "price_snapshot_php_per_liter" ∉ sqlVoucherColumns ∧
    "price_snapshot_updated_at" ∈ VOUCHER_COLUMNS ∧
      "price_snapshot_updated_at" ∉ sqlVoucherColumns ∧
    "discount_snapshot_php_per_liter" ∈ VOUCHER_COLUMNS ∧
      "discount_snapshot_php_per_liter" ∉ sqlVoucherColumns ∧
    "discount_snapshot_captured_at" ∈ VOUCHER_COLUMNS ∧
      "discount_snapshot_captured_at" ∉ sqlVoucherColumns ∧
    "discount_total_php" ∈ VOUCHER_COLUMNS ∧
      "discount_total_php" ∉ sqlVoucherColumns ∧
    "total_dispensed_php" ∈ VOUCHER_COLUMNS ∧
      "total_dispensed_php" ∉ sqlVoucherColumns ∧
    "computed_at" ∈ VOUCHER_COLUMNS ∧ "computed_at" ∉ sqlVoucherColumns ∧
    ¬ (∀ c ∈ VOUCHER_COLUMNS, c ∈ sqlVoucherColumns) := by
  decide

/-! ## Claim C4 -/

/-- **C4.** At approval, with positive resolved amount and price, the
derived fields are computed in order as `liters_requested =
round(amount / price, 2)`, `discount_total = round(liters_requested *
discount, 2)`, `total_dispensed = round(amount + discount_total, 2)`,
`liters_dispensed = round(liters_requested + discount_total / price, 2)`;
for `amount=1000`, `price=60`, `discount=2.5` this yields `16.67`,
`41.68`, `1041.68` and `17.36`. -/
theorem C4_approve_math (amount price dpl : ℚ)
    (ha : 0 < amount) (hp : 0 < price) :
    computeDerived amount price dpl =
      { liters_requested := pyRound (amount / price) 2,
        discount_total := pyRound (pyRound (amount / price) 2 * dpl) 2,
        total_dispensed :=
          pyRound (amount + pyRound (pyRound (amount / price) 2 * dpl) 2) 2,
        liters_dispensed :=
          pyRound (pyRound (amount / price) 2 +
            pyRound (pyRound (amount / price) 2 * dpl) 2 / price) 2 } ∧
    computeDerived 1000 60 (5/2) =
      { liters_requested := 1667/100, discount_total := 1042/25,
        total_dispensed := 26042/25, liters_dispensed := 434/25 } := by
  constructor
  · simp [computeDerived, ha, hp, hp.ne']
  · norm_num [computeDerived, pyRound, roundHalfEven]

/-- Witness for C4 at `amount=1000`, `price=60`, `discount=2.5`
(`16.67`, `41.68`, `1041.68`, `17.36` as exact rationals). -/
theorem C4_approve_math_witness :
    computeDerived 1000 60 (5/2) =
      { liters_requested := 1667/100, discount_total := 1042/25,
        total_dispensed := 26042/25, liters_dispensed := 434/25 } :=
  (C4_approve_math 1000 60 (5/2) (by norm_num) (by norm_num)).2

theorem setStatusRow_status (r : VRow) (ns ts : String) :
    getF (setStatusRow r ns ts) "status" = .str ns := by
  by_cases hns : ns = "Redeemed"
  · rw [setStatusRow, if_pos hns, getF_setF_ne _ _ (by decide), getF_setF_same, hns]
  · rw [setStatusRow, if_neg hns, getF_setF_ne _ _ (by decide), getF_setF_same]

theorem setStatusRow_rts (r : VRow) (ns ts : String) :
    getF (setStatusRow r ns ts) "redemption_timestamp" =
      .str (if ns = "Redeemed" then ts else "") := by
  by_cases hns : ns = "Redeemed"
  · rw [setStatusRow, if_pos hns, getF_setF_same, if_pos hns]
  · rw [setStatusRow, if_neg hns, getF_setF_same, if_neg hns]

theorem setStatusRow_other (r : VRow) (ns ts : String) (k : String)
    (h1 : k ≠ "status") (h2 : k ≠ "redemption_timestamp") :
    getF (setStatusRow r ns ts) k = getF r k := by
  by_cases hns : ns = "Redeemed"
  · rw [setStatusRow, if_pos hns, getF_setF_ne _ _ (Ne.symm h2), getF_setF_ne _ _ (Ne.symm h1)]
  · rw [setStatusRow, if_neg hns, getF_setF_ne _ _ (Ne.symm h2), getF_setF_ne _ _ (Ne.symm h1)]

/-! ## Claim C2 -/

/-- **C2 counterexample.**  On the relational backend, `set_status` with an
unknown voucher id does not fail with `NotFound` — the SQL `UPDATE` simply
matches no row and the call succeeds with the store unchanged; and even on
a known id the DB backend never bumps `updated_at` (its schema has no such
column).  This refutes the claim's "on either backend". -/
theorem C2_counterexample :
    DBRepo.set_status exStoreV1 "GHOST" "Redeemed" "T1" ≠ .error Err.notFound ∧
    DBRepo.set_status exStoreV1 "GHOST" "Redeemed" "T1" = .ok exStoreV1 ∧
    DBRepo.set_status exStoreV1 "V1" "Redeemed" "T1" =
      .ok [setStatusRow exRowV1 "Redeemed" "T1"] ∧
    getF (setStatusRow exRowV1 "Redeemed" "T1") "updated_at" = .str "U0" := by
  refine ⟨fun h => Except.noConfusion h, rfl, rfl, rfl⟩

/-- **C2 (amended).**  `setStatus` stores the supplied redemption timestamp
for target `Redeemed` and clears it otherwise on both backends; but only
the flat-file backend fails with `NotFound` on an unknown id and bumps
`updated_at` — the relational backend silently succeeds on unknown ids
(store unchanged) and leaves `updated_at` untouched. -/
theorem C2_set_status_backends (s : Store) (vid ns ts now : String) :
    (hasVoucher s vid = false →
      CSVRepo.set_status s vid ns ts now = .error .notFound ∧
      DBRepo.set_status s vid ns ts = .ok s) ∧
    (∀ s₂, CSVRepo.set_status s vid ns ts now = .ok s₂ →
      ∀ r ∈ s, getF r "voucher_id" = Val.str vid →
        ∃ r₂ ∈ s₂,
          getF r₂ "voucher_id" = Val.str vid ∧
          getF r₂ "status" = .str ns ∧
          getF r₂ "redemption_timestamp" =
            .str (if ns = "Redeemed" then ts else "") ∧
          getF r₂ "updated_at" = .str now) ∧
    (∀ s₂, DBRepo.set_status s vid ns ts = .ok s₂ →
      ∀ r ∈ s, getF r "voucher_id" = Val.str vid →
        ∃ r₂ ∈ s₂,
          getF r₂ "voucher_id" = Val.str vid ∧
          getF r₂ "status" = .str ns ∧
          getF r₂ "redemption_timestamp" =
            .str (if ns = "Redeemed" then ts else "") ∧
          getF r₂ "updated_at" = getF r "updated_at") := by
  refine ⟨?_, ?_, ?_⟩
  · intro h
    constructor
    · rw [CSVRepo.set_status, h]; rfl
    · rw [DBRepo.set_status]
      congr 1
      apply map_id_of
      intro r hr
      have := List.any_eq_false.mp h r hr
      rw [if_neg (by simpa using this)]
  · intro s₂ hok r hr hvid
    rw [CSVRepo.set_status] at hok
    by_cases h : hasVoucher s vid = true
    · rw [if_pos h] at hok
      injection hok with hs₂
      subst hs₂
      refine ⟨_, List.mem_map_of_mem _ hr, ?_, ?_, ?_, ?_⟩ <;>
        rw [if_pos hvid]
      · rw [getF_setF_ne _ _ (by decide),
          setStatusRow_other _ _ _ _ (by decide) (by decide), hvid]
      · rw [getF_setF_ne _ _ (by decide), setStatusRow_status]
      · rw [getF_setF_ne _ _ (by decide), setStatusRow_rts]
      · rw [getF_setF_same]
    · rw [if_neg h] at hok
      exact Except.noConfusion hok
  · intro s₂ hok r hr hvid
    rw [DBRepo.set_status] at hok
    injection hok with hs₂
    subst hs₂
    refine ⟨_, List.mem_map_of_mem _ hr, ?_, ?_, ?_, ?_⟩ <;>
      rw [if_pos hvid]
    · rw [setStatusRow_other _ _ _ _ (by decide) (by decide), hvid]
    · rw [setStatusRow_status]
    · rw [setStatusRow_rts]
    · rw [setStatusRow_other _ _ _ _ (by decide) (by decide)]

/-- Witness for C2 (amended): concrete behaviour on the one-voucher store,
for a known and an unknown id. -/
theorem C2_set_status_backends_witness :
    CSVRepo.set_status exStoreV1 "GHOST" "Redeemed" "T1" "N1" = .error .notFound ∧
    DBRepo.set_status exStoreV1 "GHOST" "Redeemed" "T1" = .ok exStoreV1 := by
  have h := (C2_set_status_backends exStoreV1 "GHOST" "Redeemed" "T1" "N1").1
    (by decide)
  exact h

/-! ## Claim C8 -/

/-- **C8.**  For an existing voucher, Redeem succeeds exactly when the
current (stripped) status passes the active policy — lenient mode: empty,
`Unverified` or `Unredeemed`; strict mode: only `Unredeemed` — in which
case the voucher's status becomes `Redeemed` with the supplied timestamp;
otherwise the call is rejected with `InvalidTransition` (no store is
written). -/
theorem C8_redeem_policy (s : Store) (vid now : String) (row : VRow) (enforce : Bool)
    (hrow : get_voucher s vid = some row) :
    ((∃ s₂, mark_redeemed s vid enforce now = .ok s₂) ↔
      redeemAllowed enforce (getF row "status").toStr) ∧
    (¬ redeemAllowed enforce (getF row "status").toStr →
      mark_redeemed s vid enforce now = .error .invalidTransition) ∧
    (∀ s₂, mark_redeemed s vid enforce now = .ok s₂ →
      ∃ r₂ ∈ s₂, getF r₂ "voucher_id" = Val.str vid ∧
        getF r₂ "status" = .str "Redeemed" ∧
        getF r₂ "redemption_timestamp" = .str now) := by
  have hcsv : CSVRepo.set_status s vid "Redeemed" now now =
      .ok (s.map (fun r =>
        if getF r "voucher_id" = Val.str vid then
          setF (setStatusRow r "Redeemed" now) "updated_at" (Val.str now)
        else r)) := by
    rw [CSVRepo.set_status, if_pos (hasVoucher_of_get hrow)]
  have hmr : mark_redeemed s vid enforce now =
      (if redeemAllowed enforce (getF row "status").toStr then
        CSVRepo.set_status s vid "Redeemed" now now
      else .error .invalidTransition) := by
    rw [mark_redeemed, hrow]
  by_cases hP : redeemAllowed enforce (getF row "status").toStr
  · rw [hmr, if_pos hP, hcsv]
    refine ⟨⟨fun _ => hP, fun _ => ⟨_, rfl⟩⟩, fun hc => absurd hP hc, ?_⟩
    intro s₂ hok
    injection hok with hs₂
    subst hs₂
    have hmem := List.mem_of_find?_eq_some hrow
    have hvid : getF row "voucher_id" = Val.str vid := by
      simpa using List.find?_some hrow
    refine ⟨_, List.mem_map_of_mem _ hmem, ?_⟩
    rw [if_pos hvid]
    refine ⟨?_, ?_, ?_⟩
    · rw [getF_setF_ne _ _ (by decide),
        setStatusRow_other _ _ _ _ (by decide) (by decide), hvid]
    · rw [getF_setF_ne _ _ (by decide), setStatusRow_status]
    · rw [getF_setF_ne _ _ (by decide), setStatusRow_rts, if_pos rfl]
  · rw [hmr, if_neg hP]
    exact ⟨⟨fun ⟨s₂, h⟩ => Except.noConfusion h, fun h => absurd h hP⟩,
      fun _ => rfl, fun s₂ h => Except.noConfusion h⟩

/-- Witness for C8: on the fixture store, the `Unverified` voucher `V1`
redeems in lenient mode and is rejected with `InvalidTransition` in strict
mode. -/
theorem C8_redeem_policy_witness :
    (∃ s₂, mark_redeemed exStoreV1 "V1" false "TS" = .ok s₂) ∧
    mark_redeemed exStoreV1 "V1" true "TS" = .error .invalidTransition := by
  constructor
  · exact ((C8_redeem_policy exStoreV1 "V1" "TS" exRowV1 false rfl).1).mpr
      (by decide)
  · exact (C8_redeem_policy exStoreV1 "V1" "TS" exRowV1 true rfl).2.1
      (by decide)

/-! ## Claim C9 -/

/-- **C9.**  Setting a discount for a station and then clearing it appends
exactly one audit row per mutation — two rows in total, the first
recording old → rounded new value, the second recording that value → absent
— and leaves the discount map with no entry for the station, so
`get(station)` is not-found. -/
theorem C9_discount_audit (st : DiscountState) (station : String) (v : ℚ)
    (now1 now2 a1 a2 re1 re2 : String) (hv : 0 ≤ v) :
    ∃ st₂ st₃,
      DiscountStore.set st station (some v) now1 a1 re1 = .ok st₂ ∧
      DiscountStore.set st₂ station none now2 a2 re2 = .ok st₃ ∧
      st₂.history = st.history ++
        [⟨now1, pyStrip station, dataGet st.data (pyStrip station),
          some (pyRound v 4), a1, re1⟩] ∧
      st₃.history = st₂.history ++
        [⟨now2, pyStrip station, some (pyRound v 4), none, a2, re2⟩] ∧
      dataGet st₃.data (pyStrip station) = none ∧
      DiscountStore.get st₃.data station = none := by
  have hval : validate_and_round v = .ok (pyRound v 4) := by
    rw [validate_and_round, if_neg (not_lt.mpr hv)]
  have h1 : DiscountStore.set st station (some v) now1 a1 re1 =
      .ok ⟨dataSet st.data (pyStrip station) (pyRound v 4),
           st.history ++ [⟨now1, pyStrip station,
             dataGet st.data (pyStrip station), some (pyRound v 4), a1, re1⟩]⟩ := by
    simp only [DiscountStore.set, hval]
  have hget : dataGet (dataSet st.data (pyStrip station) (pyRound v 4))
      (pyStrip station) = some (pyRound v 4) := dataGet_dataSet_same _ _ _
  have h2 : DiscountStore.set
      (⟨dataSet st.data (pyStrip station) (pyRound v 4),
        st.history ++ [⟨now1, pyStrip station,
          dataGet st.data (pyStrip station), some (pyRound v 4), a1, re1⟩]⟩ :
        DiscountState) station none now2 a2 re2 =
      .ok ⟨dataDel (dataSet st.data (pyStrip station) (pyRound v 4)) (pyStrip station),
           (st.history ++ [⟨now1, pyStrip station,
             dataGet st.data (pyStrip station), some (pyRound v 4), a1, re1⟩]) ++
           [⟨now2, pyStrip station, some (pyRound v 4), none, a2, re2⟩]⟩ := by
    simp only [DiscountStore.set, hget, Option.isSome_some, if_pos]
  have hdel : dataGet (dataDel (dataSet st.data (pyStrip station) (pyRound v 4))
      (pyStrip station)) (pyStrip station) = none := dataGet_dataDel_same _ _
  refine ⟨_, _, h1, h2, rfl, rfl, hdel, ?_⟩
  rw [DiscountStore.get]
  have := hdel
  rw [dataGet] at this
  simpa [Option.map_eq_none'] using this

/-- Witness for C9: set `2.5` for a station then clear it, starting from
the empty registry. -/
theorem C9_discount_audit_witness :
    ∃ st₂ st₃,
      DiscountStore.set ⟨[], []⟩ "Cleanfuel - Balagtas" (some (5/2)) "t1" "a" "r" = .ok st₂ ∧
      DiscountStore.set st₂ "Cleanfuel - Balagtas" none "t2" "a" "r" = .ok st₃ ∧
      st₂.history = ([] : List HistRow) ++
        [⟨"t1", pyStrip "Cleanfuel - Balagtas", dataGet [] (pyStrip "Cleanfuel - Balagtas"),
          some (pyRound (5/2) 4), "a", "r"⟩] ∧
      st₃.history = st₂.history ++
        [⟨"t2", pyStrip "Cleanfuel - Balagtas", some (pyRound (5/2) 4), none, "a", "r"⟩] ∧
      dataGet st₃.data (pyStrip "Cleanfuel - Balagtas") = none ∧
      DiscountStore.get st₃.data "Cleanfuel - Balagtas" = none :=
  C9_discount_audit ⟨[], []⟩ "Cleanfuel - Balagtas" (5/2) "t1" "t2" "a" "a" "r" "r"
    (by norm_num)

/-! ## Claim C10 -/

theorem setManyAux_error (nowIso actor reason : String)
    (updates : List (String × Option ℚ))
    (hbad : ∃ p ∈ updates, ∃ v, p.2 = some v ∧ v < 0) :
    ∀ data rows, setManyAux nowIso actor reason updates data rows =
      .error .invalidValue := by
  induction updates with
  | nil =>
    obtain ⟨p, hp, _⟩ := hbad
    exact absurd hp (List.not_mem_nil p)
  | cons p rest ih =>
    intro data rows
    obtain ⟨stn, val⟩ := p
    rcases hbad with ⟨q, hq, v, hqv, hvneg⟩
    rcases List.mem_cons.mp hq with hqp | hqrest
    · subst hqp
      simp only at hqv
      subst hqv
      simp only [setManyAux, validate_and_round, if_pos hvneg]
    · have hrest : ∃ p ∈ rest, ∃ v, p.2 = some v ∧ v < 0 := ⟨q, hqrest, v, hqv, hvneg⟩
      cases val with
      | none =>
        by_cases hsome : (dataGet data (pyStrip stn)).isSome
        · simp only [setManyAux, hsome, if_pos]
          exact ih hrest _ _
        · simp only [setManyAux, hsome, if_neg, Bool.false_eq_true, not_false_iff]
          exact ih hrest _ _
      | some w =>
        by_cases hw : w < 0
        · simp only [setManyAux, validate_and_round, if_pos hw]
        · simp only [setManyAux, validate_and_round, if_neg hw]
          exact ih hrest _ _

/-- **C10.**  `set_many` is all-or-nothing on validation failure: if any
value in the batch is negative, the call raises `InvalidValue`
(`DiscountValueError`) before `_save`/`_append_history_rows` run, so the
persisted discount map and audit log are both unchanged — even when
earlier entries of the batch were individually valid. -/
theorem C10_set_many_atomic (st : DiscountState) (updates : List (String × Option ℚ))
    (nowIso actor reason : String)
    (hbad : ∃ p ∈ updates, ∃ v, p.2 = some v ∧ v < 0) :
    DiscountStore.set_many st updates nowIso actor reason =
      (st, some Err.invalidValue) := by
  rw [DiscountStore.set_many, setManyAux_error nowIso actor reason updates hbad]

/-- Witness for C10: a batch whose first entry is valid and whose second is
negative leaves the registry untouched and raises `InvalidValue`. -/
theorem C10_set_many_atomic_witness :
    DiscountStore.set_many ⟨[], []⟩ [("A", some 2), ("B", some (-1))] "t" "a" "r" =
      (⟨[], []⟩, some Err.invalidValue) :=
  C10_set_many_atomic ⟨[], []⟩ [("A", some 2), ("B", some (-1))] "t" "a" "r"
    ⟨("B", some (-1)), by simp, -1, rfl, by norm_num⟩

/-! ## Claim C1 -/

/-- **C1.**  `updateFields` (spec-modelled, since `update_voucher_fields`
is absent from the sources) fails with `NotFound` for an unknown voucher
id; for a known id it succeeds, keeps every other row unchanged, updates
exactly the supplied known fields of the matching record (unknown field
names are ignored, unsupplied fields keep their values), and the Approve
flow's persistence of computed fields goes through this operation: when
asset generation does not succeed, the store produced by the Approve
branch is exactly the `updateFields` result. -/
theorem C1_update_fields (s : Store) (vid : String) (fm : List (String × Val))
    (hnd : (fm.map Prod.fst).Nodup) :
    (hasVoucher s vid = false →
      update_voucher_fields s vid fm = .error .notFound) ∧
    (∀ s₂, update_voucher_fields s vid fm = .ok s₂ →
      s₂.length = s.length ∧
      (∀ r ∈ s, getF r "voucher_id" ≠ Val.str vid → r ∈ s₂) ∧
      (∀ r ∈ s, getF r "voucher_id" = Val.str vid →
        ∃ r₂ ∈ s₂,
          (∀ k v, fm.find? (fun p => p.1 = k) = some (k, v) →
            k ∈ VOUCHER_COLUMNS → getF r₂ k = v) ∧
          (∀ k, (∀ p ∈ fm, p.1 ≠ k) → getF r₂ k = getF r k) ∧
          (∀ k v, fm.find? (fun p => p.1 = k) = some (k, v) →
            k ∉ VOUCHER_COLUMNS → getF r₂ k = getF r k))) ∧
    (∀ stations discounts nowEpoch computedAt now row,
      get_voucher s vid = some row →
      (ops_approve s vid stations discounts false nowEpoch computedAt now).1 =
        (update_voucher_fields s vid
          (approveFieldMap row stations discounts nowEpoch computedAt)).toOption.getD s) := by
  refine ⟨?_, ?_, ?_⟩
  · intro h
    rw [update_voucher_fields, h]
    rfl
  · intro s₂ hok
    rw [update_voucher_fields] at hok
    by_cases h : hasVoucher s vid = true
    · rw [if_pos h] at hok
      injection hok with hs₂
      subst hs₂
      refine ⟨by simp, ?_, ?_⟩
      · intro r hr hne
        have : (if getF r "voucher_id" = Val.str vid then applyFields r fm else r) = r :=
          if_neg hne
        exact this ▸ List.mem_map_of_mem _ hr
      · intro r hr hvid
        refine ⟨_, List.mem_map_of_mem _ hr, ?_, ?_, ?_⟩ <;>
          rw [if_pos hvid]
        · intro k v hfind hmem
          rw [getF_applyFields_mem fm r k v hnd hfind, if_pos hmem]
        · intro k hnotin
          exact getF_applyFields_not_mem fm r k hnotin
        · intro k v hfind hnotmem
          rw [getF_applyFields_mem fm r k v hnd hfind, if_neg hnotmem]
    · rw [if_neg h] at hok
      exact Except.noConfusion hok
  · intro stations discounts nowEpoch computedAt now row hrow
    have hupd : update_voucher_fields s vid
        (approveFieldMap row stations discounts nowEpoch computedAt) =
        .ok (s.map (fun r =>
          if getF r "voucher_id" = Val.str vid then
            applyFields r (approveFieldMap row stations discounts nowEpoch computedAt)
          else r)) := by
      rw [update_voucher_fields, if_pos (hasVoucher_of_get hrow)]
    simp only [ops_approve, hrow, hupd]
    cases hfresh : get_voucher (s.map (fun r =>
        if getF r "voucher_id" = Val.str vid then
          applyFields r (approveFieldMap row stations discounts nowEpoch computedAt)
        else r)) vid with
    | none => rfl
    | some fresh =>
      simp only [hfresh]
      split
      · rfl
      · split
        · rfl
        · next hc => exact absurd Bool.false_ne_true hc

/-- Witness for C1: an unknown id is rejected with `NotFound` on the
fixture store. -/
theorem C1_update_fields_witness :
    update_voucher_fields exStoreV1 "GHOST" [("status", Val.str "X")] =
      .error .notFound :=
  (C1_update_fields exStoreV1 "GHOST" [("status", Val.str "X")] (by decide)).1
    (by decide)

/-! ## Approve-flow helper lemmas -/

theorem approveFieldMap_keys (row : VRow) (stations : List StationEntry)
    (discounts : List (String × ℚ)) (nowEpoch : ℚ) (computedAt : String) :
    (approveFieldMap row stations discounts nowEpoch computedAt).map Prod.fst =
      ["live_price_php_per_liter", "discount_per_liter",
       "price_snapshot_php_per_liter", "price_snapshot_updated_at",
       "discount_snapshot_php_per_liter", "discount_snapshot_captured_at",
       "liters_requested", "discount_total_php", "total_dispensed_php",
       "liters_dispensed", "computed_at"] := rfl

theorem approveFieldMap_nodup (row : VRow) (stations : List StationEntry)
    (discounts : List (String × ℚ)) (nowEpoch : ℚ) (computedAt : String) :
    ((approveFieldMap row stations discounts nowEpoch computedAt).map Prod.fst).Nodup := by
  rw [approveFieldMap_keys]
  decide

theorem approveFieldMap_no_key (row : VRow) (stations : List StationEntry)
    (discounts : List (String × ℚ)) (nowEpoch : ℚ) (computedAt : String) (k : String)
    (hk : k ∉ ["live_price_php_per_liter", "discount_per_liter",
       "price_snapshot_php_per_liter", "price_snapshot_updated_at",
       "discount_snapshot_php_per_liter", "discount_snapshot_captured_at",
       "liters_requested", "discount_total_php", "total_dispensed_php",
       "liters_dispensed", "computed_at"]) :
    ∀ p ∈ approveFieldMap row stations discounts nowEpoch computedAt, p.1 ≠ k := by
  intro p hp he
  have hmem : p.1 ∈ (approveFieldMap row stations discounts nowEpoch computedAt).map
      Prod.fst := List.mem_map_of_mem Prod.fst hp
  rw [approveFieldMap_keys] at hmem
  exact hk (he ▸ hmem)

/-- Cells not named by the approve field map survive the partial update. -/
theorem approveFresh_other (row : VRow) (stations : List StationEntry)
    (discounts : List (String × ℚ)) (nowEpoch : ℚ) (computedAt : String) (k : String)
    (hk : k ∉ ["live_price_php_per_liter", "discount_per_liter",
       "price_snapshot_php_per_liter", "price_snapshot_updated_at",
       "discount_snapshot_php_per_liter", "discount_snapshot_captured_at",
       "liters_requested", "discount_total_php", "total_dispensed_php",
       "liters_dispensed", "computed_at"]) :
    getF (applyFields row (approveFieldMap row stations discounts nowEpoch computedAt)) k =
      getF row k :=
  getF_applyFields_not_mem _ _ _
    (approveFieldMap_no_key row stations discounts nowEpoch computedAt k hk)

/-- The four derived cells written by the approve field map. -/
theorem approveFresh_computed (row : VRow) (stations : List StationEntry)
    (discounts : List (String × ℚ)) (nowEpoch : ℚ) (computedAt : String) :
    getF (applyFields row (approveFieldMap row stations discounts nowEpoch computedAt))
        "liters_requested" =
      .num (computeDerived (getF row "requested_amount_php").toNum
        (resolvePrice row stations) (resolveDiscount row discounts)).liters_requested ∧
    getF (applyFields row (approveFieldMap row stations discounts nowEpoch computedAt))
        "discount_total_php" =
      .num (computeDerived (getF row "requested_amount_php").toNum
        (resolvePrice row stations) (resolveDiscount row discounts)).discount_total ∧
    getF (applyFields row (approveFieldMap row stations discounts nowEpoch computedAt))
        "total_dispensed_php" =
      .num (computeDerived (getF row "requested_amount_php").toNum
        (resolvePrice row stations) (resolveDiscount row discounts)).total_dispensed ∧
    getF (applyFields row (approveFieldMap row stations discounts nowEpoch computedAt))
        "liters_dispensed" =
      .num (computeDerived (getF row "requested_amount_php").toNum
        (resolvePrice row stations) (resolveDiscount row discounts)).liters_dispensed := by
  have hnd := approveFieldMap_nodup row stations discounts nowEpoch computedAt
  refine ⟨?_, ?_, ?_, ?_⟩
  · have hfind : (approveFieldMap row stations discounts nowEpoch computedAt).find?
        (fun p => p.1 = "liters_requested") =
        some ("liters_requested", Val.num (computeDerived
          (getF row "requested_amount_php").toNum (resolvePrice row stations)
          (resolveDiscount row discounts)).liters_requested) := rfl
    rw [getF_applyFields_mem _ _ _ _ hnd hfind, if_pos (by decide)]
  · have hfind : (approveFieldMap row stations discounts nowEpoch computedAt).find?
        (fun p => p.1 = "discount_total_php") =
        some ("discount_total_php", Val.num (computeDerived
          (getF row "requested_amount_php").toNum (resolvePrice row stations)
          (resolveDiscount row discounts)).discount_total) := rfl
    rw [getF_applyFields_mem _ _ _ _ hnd hfind, if_pos (by decide)]
  · have hfind : (approveFieldMap row stations discounts nowEpoch computedAt).find?
        (fun p => p.1 = "total_dispensed_php") =
        some ("total_dispensed_php", Val.num (computeDerived
          (getF row "requested_amount_php").toNum (resolvePrice row stations)
          (resolveDiscount row discounts)).total_dispensed) := rfl
    rw [getF_applyFields_mem _ _ _ _ hnd hfind, if_pos (by decide)]
  · have hfind : (approveFieldMap row stations discounts nowEpoch computedAt).find?
        (fun p => p.1 = "liters_dispensed") =
        some ("liters_dispensed", Val.num (computeDerived
          (getF row "requested_amount_php").toNum (resolvePrice row stations)
          (resolveDiscount row discounts)).liters_dispensed) := rfl
    rw [getF_applyFields_mem _ _ _ _ hnd hfind, if_pos (by decide)]

/-- Voucher lookup commutes with the per-row rewrite of `updateFields`. -/
theorem get_voucher_update (s : Store) (vid : String) (fm : List (String × Val))
    (hnk : ∀ p ∈ fm, p.1 ≠ "voucher_id") :
    get_voucher (s.map (fun r =>
        if getF r "voucher_id" = Val.str vid then applyFields r fm else r)) vid =
      (get_voucher s vid).map (fun r =>
        if getF r "voucher_id" = Val.str vid then applyFields r fm else r) := by
  rw [get_voucher, get_voucher, find?_map_of]
  intro r
  by_cases h : getF r "voucher_id" = Val.str vid
  · rw [if_pos h, getF_applyFields_not_mem _ _ _ hnk]
  · rw [if_neg h]

/-- Voucher lookup commutes with the per-row rewrite of the flat-file
`set_status`. -/
theorem get_voucher_setStatus (s : Store) (vid ns ts now : String) :
    get_voucher (s.map (fun r =>
        if getF r "voucher_id" = Val.str vid then
          setF (setStatusRow r ns ts) "updated_at" (Val.str now)
        else r)) vid =
      (get_voucher s vid).map (fun r =>
        if getF r "voucher_id" = Val.str vid then
          setF (setStatusRow r ns ts) "updated_at" (Val.str now)
        else r) := by
  rw [get_voucher, get_voucher, find?_map_of]
  intro r
  by_cases h : getF r "voucher_id" = Val.str vid
  · rw [if_pos h, getF_setF_ne _ _ (by decide),
      setStatusRow_other _ _ _ _ (by decide) (by decide)]
  · rw [if_neg h]

/-- Full description of the Approve branch once the voucher is found:
fields are persisted through `updateFields` first; then either the
fail-fast guard trips (`ComputationError`), or asset generation fails
(`AssetGenerationError`), or the status is flipped to `Unredeemed`. -/
theorem ops_approve_eq (s : Store) (vid : String) (stations : List StationEntry)
    (discounts : List (String × ℚ)) (assetOk : Bool) (nowEpoch : ℚ)
    (computedAt now : String) (row : VRow)
    (hrow : get_voucher s vid = some row) :
    ops_approve s vid stations discounts assetOk nowEpoch computedAt now =
      (if ¬ (getF (applyFields row
            (approveFieldMap row stations discounts nowEpoch computedAt))
            "requested_amount_php").truthy ∨ resolvePrice row stations ≤ 0 then
        (s.map (fun r =>
          if getF r "voucher_id" = Val.str vid then
            applyFields r (approveFieldMap row stations discounts nowEpoch computedAt)
          else r), .error .computationError)
      else if ¬ assetOk then
        (s.map (fun r =>
          if getF r "voucher_id" = Val.str vid then
            applyFields r (approveFieldMap row stations discounts nowEpoch computedAt)
          else r), .error .assetGenerationError)
      else
        ((s.map (fun r =>
          if getF r "voucher_id" = Val.str vid then
            applyFields r (approveFieldMap row stations discounts nowEpoch computedAt)
          else r)).map (fun r =>
            if getF r "voucher_id" = Val.str vid then
              setF (setStatusRow r "Unredeemed" "") "updated_at" (Val.str now)
            else r), .ok ())) := by
  have hmatch : getF row "voucher_id" = Val.str vid := by
    simpa using List.find?_some hrow
  have hnk : ∀ p ∈ approveFieldMap row stations discounts nowEpoch computedAt,
      p.1 ≠ "voucher_id" :=
    approveFieldMap_no_key row stations discounts nowEpoch computedAt _ (by decide)
  have hupd : update_voucher_fields s vid
      (approveFieldMap row stations discounts nowEpoch computedAt) =
      .ok (s.map (fun r =>
        if getF r "voucher_id" = Val.str vid then
          applyFields r (approveFieldMap row stations discounts nowEpoch computedAt)
        else r)) := by
    rw [update_voucher_fields, if_pos (hasVoucher_of_get hrow)]
  have hfresh : get_voucher (s.map (fun r =>
      if getF r "voucher_id" = Val.str vid then
        applyFields r (approveFieldMap row stations discounts nowEpoch computedAt)
      else r)) vid =
      some (applyFields row (approveFieldMap row stations discounts nowEpoch computedAt)) := by
    rw [get_voucher_update s vid _ hnk, hrow, Option.map_some', if_pos hmatch]
  have hset : CSVRepo.set_status (s.map (fun r =>
      if getF r "voucher_id" = Val.str vid then
        applyFields r (approveFieldMap row stations discounts nowEpoch computedAt)
      else r)) vid "Unredeemed" "" now =
      .ok ((s.map (fun r =>
        if getF r "voucher_id" = Val.str vid then
          applyFields r (approveFieldMap row stations discounts nowEpoch computedAt)
        else r)).map (fun r =>
          if getF r "voucher_id" = Val.str vid then
            setF (setStatusRow r "Unredeemed" "") "updated_at" (Val.str now)
          else r)) := by
    rw [CSVRepo.set_status, if_pos (hasVoucher_of_get hfresh)]
  simp only [ops_approve, hrow, hupd, hfresh, hset]

/-- The zero-price guard of the Approve math. -/
theorem computeDerived_zero_price (a d : ℚ) :
    computeDerived a 0 d = ⟨0, 0, a, 0⟩ := by
  rw [computeDerived, if_neg]
  rintro ⟨-, h⟩
  exact absurd h (lt_irrefl 0)

/-! ## Claim C7 -/

/-- **C7.**  If asset generation fails during Approve (on a voucher whose
persisted amount is truthy and whose resolved price is positive, so the
generator is actually invoked), the transition fails with
`AssetGenerationError` and the voucher's status is unchanged, so the step
is retriable; and the Approve branch returns success only when asset
generation succeeded, in which case the status is `Unredeemed`. -/
theorem C7_asset_failure (s : Store) (vid : String) (stations : List StationEntry)
    (discounts : List (String × ℚ)) (nowEpoch : ℚ) (computedAt now : String)
    (row : VRow) (hrow : get_voucher s vid = some row)
    (hamt : (getF row "requested_amount_php").truthy = true)
    (hp : 0 < resolvePrice row stations) :
    (∃ s₂, ops_approve s vid stations discounts false nowEpoch computedAt now =
        (s₂, .error .assetGenerationError) ∧
      statusOf s₂ vid = statusOf s vid) ∧
    (∀ assetOk s₃,
      ops_approve s vid stations discounts assetOk nowEpoch computedAt now =
        (s₃, .ok ()) →
      assetOk = true ∧ statusOf s₃ vid = some (Val.str "Unredeemed")) := by
  have hmatch : getF row "voucher_id" = Val.str vid := by
    simpa using List.find?_some hrow
  have hnk : ∀ p ∈ approveFieldMap row stations discounts nowEpoch computedAt,
      p.1 ≠ "voucher_id" :=
    approveFieldMap_no_key row stations discounts nowEpoch computedAt _ (by decide)
  have hfreshamt : (getF (applyFields row
      (approveFieldMap row stations discounts nowEpoch computedAt))
      "requested_amount_php").truthy = true := by
    rw [approveFresh_other row stations discounts nowEpoch computedAt _ (by decide)]
    exact hamt
  have hguard : ¬ (¬ (getF (applyFields row
      (approveFieldMap row stations discounts nowEpoch computedAt))
      "requested_amount_php").truthy = true ∨ resolvePrice row stations ≤ 0) := by
    rw [not_or]
    exact ⟨not_not_intro hfreshamt, not_le.mpr hp⟩
  have hfresh : get_voucher (s.map (fun r =>
      if getF r "voucher_id" = Val.str vid then
        applyFields r (approveFieldMap row stations discounts nowEpoch computedAt)
      else r)) vid =
      some (applyFields row (approveFieldMap row stations discounts nowEpoch computedAt)) := by
    rw [get_voucher_update s vid _ hnk, hrow, Option.map_some', if_pos hmatch]
  constructor
  · refine ⟨s.map (fun r =>
        if getF r "voucher_id" = Val.str vid then
          applyFields r (approveFieldMap row stations discounts nowEpoch computedAt)
        else r), ?_, ?_⟩
    · rw [ops_approve_eq s vid stations discounts false nowEpoch computedAt now row hrow,
        if_neg hguard, if_pos (by simp)]
    · rw [statusOf, statusOf, hfresh, hrow, Option.map_some', Option.map_some',
        approveFresh_other row stations discounts nowEpoch computedAt _ (by decide)]
  · intro assetOk s₃ hok
    rw [ops_approve_eq s vid stations discounts assetOk nowEpoch computedAt now row hrow,
      if_neg hguard] at hok
    cases assetOk with
    | false =>
      rw [if_pos (by simp)] at hok
      injection hok with h1 h2
      exact Except.noConfusion h2
    | true =>
      rw [if_neg (by simp)] at hok
      injection hok with h1 h2
      refine ⟨rfl, ?_⟩
      rw [← h1]
      have hfvid : getF (applyFields row
          (approveFieldMap row stations discounts nowEpoch computedAt))
          "voucher_id" = Val.str vid := by
        rw [approveFresh_other row stations discounts nowEpoch computedAt _ (by decide),
          hmatch]
      rw [statusOf, get_voucher_setStatus, hfresh, Option.map_some', Option.map_some',
        if_pos hfvid, getF_setF_ne _ _ (by decide), setStatusRow_status]

/-- Witness for C7: on the snapshot-priced voucher, a failing asset
generator yields `AssetGenerationError` with status still `Unverified`. -/
theorem C7_asset_failure_witness :
    ∃ s₂, ops_approve exStoreOK "VK" [] [] false 0 "CA" "NOW" =
        (s₂, .error .assetGenerationError) ∧
      statusOf s₂ "VK" = statusOf exStoreOK "VK" :=
  (C7_asset_failure exStoreOK "VK" [] [] 0 "CA" "NOW" exRowOK rfl
    (by
      have h1 : getF exRowOK "requested_amount_php" = Val.num 1000 := rfl
      rw [h1]
      norm_num [Val.truthy])
    (by
      have h1 : (getF exRowOK "price_snapshot_php_per_liter").toNum = 60 := rfl
      simp only [resolvePrice, h1]
      norm_num)).1

/-! ## Claim C5 -/

/-- **C5 counterexample.**  On a voucher whose resolved price is 0 (no
snapshot, no live station match) and amount 1000, the Approve branch does
not succeed even with a working asset generator: it stops at the fail-fast
check with `ComputationError` (HTTP 400) and the status stays
`Unverified`, refuting the claim's "the transition still succeeds". -/
theorem C5_counterexample :
    (ops_approve exStoreP0 "VP" [] [] true 0 "CA" "NOW").2 =
      .error Err.computationError ∧
    statusOf (ops_approve exStoreP0 "VP" [] [] true 0 "CA" "NOW").1 "VP" =
      some (Val.str "Unverified") := by
  have hp : resolvePrice exRowP0 [] = 0 := by
    have h1 : (getF exRowP0 "price_snapshot_php_per_liter").toNum = 0 := rfl
    simp only [resolvePrice, h1, le_refl, if_true, List.find?_nil]
  have heq := ops_approve_eq exStoreP0 "VP" [] [] true 0 "CA" "NOW" exRowP0 rfl
  rw [if_pos (Or.inr (le_of_eq hp))] at heq
  have hnk : ∀ p ∈ approveFieldMap exRowP0 [] [] 0 "CA", p.1 ≠ "voucher_id" :=
    approveFieldMap_no_key exRowP0 [] [] 0 "CA" _ (by decide)
  have hfresh : get_voucher ((exStoreP0 : Store).map (fun r =>
      if getF r "voucher_id" = Val.str "VP" then
        applyFields r (approveFieldMap exRowP0 [] [] 0 "CA")
      else r)) "VP" =
      some (applyFields exRowP0 (approveFieldMap exRowP0 [] [] 0 "CA")) := by
    rw [get_voucher_update _ _ _ hnk]
    rfl
  rw [heq]
  refine ⟨rfl, ?_⟩
  rw [statusOf, hfresh, Option.map_some',
    approveFresh_other exRowP0 [] [] 0 "CA" _ (by decide)]
  rfl

/-- **C5 (amended).**  At approval, for a voucher whose resolved price is
0, the derived fields are written through `updateFields` exactly as the
zero-guard prescribes — `liters_requested = 0`, `discount_total = 0`,
`liters_dispensed = 0`, `total_dispensed = amount` — but the transition
then fails with `ComputationError` (the fail-fast check) rather than
succeeding: the status does not advance to `Unredeemed`. -/
theorem C5_price_zero (s : Store) (vid : String) (stations : List StationEntry)
    (discounts : List (String × ℚ)) (assetOk : Bool) (nowEpoch : ℚ)
    (computedAt now : String) (row : VRow)
    (hrow : get_voucher s vid = some row)
    (hp : resolvePrice row stations = 0) :
    ∃ s₂, ops_approve s vid stations discounts assetOk nowEpoch computedAt now =
        (s₂, .error .computationError) ∧
      ∃ fresh, get_voucher s₂ vid = some fresh ∧
        getF fresh "liters_requested" = .num 0 ∧
        getF fresh "discount_total_php" = .num 0 ∧
        getF fresh "liters_dispensed" = .num 0 ∧
        getF fresh "total_dispensed_php" =
          .num (getF row "requested_amount_php").toNum ∧
        getF fresh "status" = getF row "status" := by
  have hmatch : getF row "voucher_id" = Val.str vid := by
    simpa using List.find?_some hrow
  have hnk : ∀ p ∈ approveFieldMap row stations discounts nowEpoch computedAt,
      p.1 ≠ "voucher_id" :=
    approveFieldMap_no_key row stations discounts nowEpoch computedAt _ (by decide)
  have hfresh : get_voucher (s.map (fun r =>
      if getF r "voucher_id" = Val.str vid then
        applyFields r (approveFieldMap row stations discounts nowEpoch computedAt)
      else r)) vid =
      some (applyFields row (approveFieldMap row stations discounts nowEpoch computedAt)) := by
    rw [get_voucher_update s vid _ hnk, hrow, Option.map_some', if_pos hmatch]
  refine ⟨s.map (fun r =>
      if getF r "voucher_id" = Val.str vid then
        applyFields r (approveFieldMap row stations discounts nowEpoch computedAt)
      else r), ?_, ?_⟩
  · rw [ops_approve_eq s vid stations discounts assetOk nowEpoch computedAt now row hrow,
      if_pos (Or.inr (le_of_eq hp))]
  · refine ⟨_, hfresh, ?_, ?_, ?_, ?_, ?_⟩
    · rw [(approveFresh_computed row stations discounts nowEpoch computedAt).1, hp,
        computeDerived_zero_price]
    · rw [(approveFresh_computed row stations discounts nowEpoch computedAt).2.1, hp,
        computeDerived_zero_price]
    · rw [(approveFresh_computed row stations discounts nowEpoch computedAt).2.2.2, hp,
        computeDerived_zero_price]
    · rw [(approveFresh_computed row stations discounts nowEpoch computedAt).2.2.1, hp,
        computeDerived_zero_price]
    · exact approveFresh_other row stations discounts nowEpoch computedAt _ (by decide)

/-- Witness for C5 (amended): the price-less voucher gets the zero-guard
fields written and the transition fails with `ComputationError`. -/
theorem C5_price_zero_witness :
    ∃ s₂, ops_approve exStoreP0 "VP" [] [] true 0 "CA" "NOW" =
        (s₂, .error .computationError) ∧
      ∃ fresh, get_voucher s₂ "VP" = some fresh ∧
        getF fresh "liters_requested" = .num 0 ∧
        getF fresh "discount_total_php" = .num 0 ∧
        getF fresh "liters_dispensed" = .num 0 ∧
        getF fresh "total_dispensed_php" =
          .num (getF exRowP0 "requested_amount_php").toNum ∧
        getF fresh "status" = getF exRowP0 "status" :=
  C5_price_zero exStoreP0 "VP" [] [] true 0 "CA" "NOW" exRowP0 rfl
    (by
      have h1 : (getF exRowP0 "price_snapshot_php_per_liter").toNum = 0 := rfl
      simp only [resolvePrice, h1, le_refl, if_true, List.find?_nil])

/-! ## list_recent helper lemmas -/

theorem descOpt_length (o : Option ℚ) : (descOpt o).length = 2 := by
  cases o <;> rfl

theorem presentVal_num (q : ℚ) : presentVal (Val.num q) = true := rfl

theorem descOpt_parseVal_num (q : ℚ) :
    descOpt (parseVal (Val.num q)) = [0, -q] := rfl

theorem csvKey_length (p : ℕ × VRow) : (csvKey p).length = 3 := rfl

theorem dbKey_length (p : ℕ × VRow) : (dbKey p).length = 7 := by
  simp [dbKey, dbDateKey, descOpt_length]

theorem csv_le_trans (a b c : ℕ × VRow)
    (hab : lexLe (csvKey a) (csvKey b) = true)
    (hbc : lexLe (csvKey b) (csvKey c) = true) :
    lexLe (csvKey a) (csvKey c) = true :=
  lexLe_trans (by rw [csvKey_length, csvKey_length])
    (by rw [csvKey_length, csvKey_length]) hab hbc

theorem csv_le_total (a b : ℕ × VRow) :
    (lexLe (csvKey a) (csvKey b) || lexLe (csvKey b) (csvKey a)) = true := by
  rcases lexLe_total (csvKey a) (csvKey b) with h | h <;> simp [h]

theorem db_le_trans (a b c : ℕ × VRow)
    (hab : lexLe (dbKey a) (dbKey b) = true)
    (hbc : lexLe (dbKey b) (dbKey c) = true) :
    lexLe (dbKey a) (dbKey c) = true :=
  lexLe_trans (by rw [dbKey_length, dbKey_length])
    (by rw [dbKey_length, dbKey_length]) hab hbc

theorem db_le_total (a b : ℕ × VRow) :
    (lexLe (dbKey a) (dbKey b) || lexLe (dbKey b) (dbKey a)) = true := by
  rcases lexLe_total (dbKey a) (dbKey b) with h | h <;> simp [h]

theorem csv_list_recent_sorted (s : Store) (limit : ℕ) :
    List.Pairwise csvOrdered (CSVRepo.list_recent_vouchers s limit) := by
  have hs : (s.enum.mergeSort (fun a b => lexLe (csvKey a) (csvKey b))).Pairwise
      (fun a b => lexLe (csvKey a) (csvKey b) = true) :=
    List.sorted_mergeSort csv_le_trans csv_le_total s.enum
  have hmap : ((s.enum.mergeSort (fun a b => lexLe (csvKey a) (csvKey b))).map
      Prod.snd).Pairwise csvOrdered := by
    refine hs.map Prod.snd ?_
    intro a b h
    exact lexLe_append_last _ _ rfl h
  exact hmap.sublist (List.take_sublist _ _)

theorem db_list_recent_sorted (s : Store) (limit : ℕ) :
    List.Pairwise dbOrdered (DBRepo.list_recent_vouchers s limit) := by
  have hs : (s.enum.mergeSort (fun a b => lexLe (dbKey a) (dbKey b))).Pairwise
      (fun a b => lexLe (dbKey a) (dbKey b) = true) :=
    List.sorted_mergeSort db_le_trans db_le_total s.enum
  have hmap : ((s.enum.mergeSort (fun a b => lexLe (dbKey a) (dbKey b))).map
      Prod.snd).Pairwise dbOrdered := by
    refine hs.map Prod.snd ?_
    intro a b h
    refine lexLe_append_last _ _ ?_ h
    simp [dbDateKey, descOpt_length]
  exact hmap.sublist (List.take_sublist _ _)

theorem csv_list_recent_length (s : Store) (limit : ℕ) :
    (CSVRepo.list_recent_vouchers s limit).length = min limit s.length := by
  simp [CSVRepo.list_recent_vouchers]

theorem db_list_recent_length (s : Store) (limit : ℕ) :
    (DBRepo.list_recent_vouchers s limit).length = min limit s.length := by
  simp [DBRepo.list_recent_vouchers]

theorem csv_list_recent_mem (s : Store) (limit : ℕ) :
    ∀ r ∈ CSVRepo.list_recent_vouchers s limit, r ∈ s := by
  intro r hr
  have h1 : r ∈ (s.enum.mergeSort (fun a b => lexLe (csvKey a) (csvKey b))).map
      Prod.snd := (List.take_sublist _ _).subset hr
  have hperm := (List.mergeSort_perm s.enum
    (fun a b => lexLe (csvKey a) (csvKey b))).map Prod.snd
  have h2 : r ∈ s.enum.map Prod.snd := hperm.mem_iff.mp h1
  rwa [List.enum_map_snd] at h2

theorem db_list_recent_mem (s : Store) (limit : ℕ) :
    ∀ r ∈ DBRepo.list_recent_vouchers s limit, r ∈ s := by
  intro r hr
  have h1 : r ∈ (s.enum.mergeSort (fun a b => lexLe (dbKey a) (dbKey b))).map
      Prod.snd := (List.take_sublist _ _).subset hr
  have hperm := (List.mergeSort_perm s.enum
    (fun a b => lexLe (dbKey a) (dbKey b))).map Prod.snd
  have h2 : r ∈ s.enum.map Prod.snd := hperm.mem_iff.mp h1
  rwa [List.enum_map_snd] at h2

/-! ## Claim C6 -/

/-- **C6 counterexample.**  The two backends do not produce the identical
ordering: the flat-file backend sorts primarily by `transaction_date`, the
relational backend primarily by `created_at`.  On a store with voucher A
(transaction 2, created 1) and voucher B (transaction 1, created 2), CSV
returns [A, B] while DB returns [B, A]. -/
theorem C6_counterexample :
    CSVRepo.list_recent_vouchers exStoreAB 2 = [rowA, rowB] ∧
    DBRepo.list_recent_vouchers exStoreAB 2 = [rowB, rowA] ∧
    CSVRepo.list_recent_vouchers exStoreAB 2 ≠
      DBRepo.list_recent_vouchers exStoreAB 2 := by
  have gA : getF rowA "transaction_date" = Val.num 2 := rfl
  have gB : getF rowB "transaction_date" = Val.num 1 := rfl
  have cA : getF rowA "created_at" = Val.num 1 := rfl
  have cB : getF rowB "created_at" = Val.num 2 := rfl
  have h1 : CSVRepo.list_recent_vouchers exStoreAB 2 = [rowA, rowB] := by
    norm_num [CSVRepo.list_recent_vouchers, exStoreAB, List.enum, List.enumFrom,
      List.mergeSort, List.merge, csvKey, csvDateKey, parseVal, gA, gB, lexLe]
  have h2 : DBRepo.list_recent_vouchers exStoreAB 2 = [rowB, rowA] := by
    norm_num [DBRepo.list_recent_vouchers, exStoreAB, List.enum, List.enumFrom,
      List.mergeSort, List.merge, dbKey, dbDateKey, presentVal_num,
      descOpt_parseVal_num, parseVal, gA, gB, cA, cB, lexLe]
  refine ⟨h1, h2, ?_⟩
  rw [h1, h2]
  decide

/-- **C6 (amended).**  Each backend returns rows sorted by its own key and
truncated to the limit: the flat-file backend orders primarily by the
parsed `transaction_date` (most recent first, rows without a parsable date
after all rows with one), the relational backend primarily by `created_at`
presence and recency and then by `transaction_date`; each output has
length `min limit n` and draws its rows from the store; on the three
vouchers with creation times T1 < T2 < T3 (transaction date set at
creation) both backends return `[T3, T2]` for limit 2 — but the two
orderings are not identical in general. -/
theorem C6_list_recent (s : Store) (limit : ℕ) :
    ((CSVRepo.list_recent_vouchers s limit).length = min limit s.length ∧
     List.Pairwise csvOrdered (CSVRepo.list_recent_vouchers s limit) ∧
     ∀ r ∈ CSVRepo.list_recent_vouchers s limit, r ∈ s) ∧
    ((DBRepo.list_recent_vouchers s limit).length = min limit s.length ∧
     List.Pairwise dbOrdered (DBRepo.list_recent_vouchers s limit) ∧
     ∀ r ∈ DBRepo.list_recent_vouchers s limit, r ∈ s) ∧
    (CSVRepo.list_recent_vouchers exStoreT 2 = [rowT3, rowT2] ∧
     DBRepo.list_recent_vouchers exStoreT 2 = [rowT3, rowT2]) := by
  refine ⟨⟨csv_list_recent_length s limit, csv_list_recent_sorted s limit,
      csv_list_recent_mem s limit⟩,
    ⟨db_list_recent_length s limit, db_list_recent_sorted s limit,
      db_list_recent_mem s limit⟩, ?_, ?_⟩
  · have g1 : getF rowT1 "transaction_date" = Val.num 1 := rfl
    have g2 : getF rowT2 "transaction_date" = Val.num 2 := rfl
    have g3 : getF rowT3 "transaction_date" = Val.num 3 := rfl
    norm_num [CSVRepo.list_recent_vouchers, exStoreT, List.enum, List.enumFrom,
      List.mergeSort, List.merge, csvKey, csvDateKey, parseVal, g1, g2, g3, lexLe]
  · have g1 : getF rowT1 "transaction_date" = Val.num 1 := rfl
    have g2 : getF rowT2 "transaction_date" = Val.num 2 := rfl
    have g3 : getF rowT3 "transaction_date" = Val.num 3 := rfl
    have c1 : getF rowT1 "created_at" = Val.num 1 := rfl
    have c2 : getF rowT2 "created_at" = Val.num 2 := rfl
    have c3 : getF rowT3 "created_at" = Val.num 3 := rfl
    norm_num [DBRepo.list_recent_vouchers, exStoreT, List.enum, List.enumFrom,
      List.mergeSort, List.merge, dbKey, dbDateKey, presentVal_num,
      descOpt_parseVal_num, parseVal, g1, g2, g3, c1, c2, c3, lexLe]

/-- Witness for C6 (amended) at the T1 < T2 < T3 store with limit 2. -/
theorem C6_list_recent_witness :
    (CSVRepo.list_recent_vouchers exStoreT 2).length = min 2 exStoreT.length ∧
    CSVRepo.list_recent_vouchers exStoreT 2 = [rowT3, rowT2] ∧
    DBRepo.list_recent_vouchers exStoreT 2 = [rowT3, rowT2] :=
  ⟨(C6_list_recent exStoreT 2).1.1, (C6_list_recent exStoreT 2).2.2.1,
   (C6_list_recent exStoreT 2).2.2.2⟩

end UniFleet
